import Mathlib

/-!
# native_helper.c : process launch, reap and terminate

A shallow embedding of `app/src/main/cpp/native_helper.c`.

* C `int` values (`jint`, `pid_t`, descriptor numbers, wait status words) are `Int`.
  Bitwise macros act on the 32-bit two's-complement pattern of the value, which is
  obtained with an explicit `% 2 ^ 32`.
* System calls act on an explicit process state `Proc` (descriptor table, `errno`,
  file contents, list of calls issued so far).  What the outside world decides (does
  `open` succeed, does `execv` succeed, what does `fork` return) is read from an `Env`.
-/

namespace NativeHelper

set_option maxRecDepth 20000

/-! ## `<sys/wait.h>` status words -/

/-- Bit pattern of a C `int`: the unsigned 32-bit value with the same two's-complement
representation. -/
def bits32 (x : Int) : Nat := (x % 2 ^ 32).toNat

/-- Modelled from the spec: the `<sys/wait.h>` macro `WTERMSIG(s)`, `((s) & 0x7f)`, is a
system header and not part of the repository sources. -/
def WTERMSIG (s : Int) : Int := ((bits32 s &&& 0x7f : Nat) : Int)

/-- Modelled from the spec: the `<sys/wait.h>` macro `WEXITSTATUS(s)`,
`(((s) & 0xff00) >> 8)`, is a system header and not part of the repository sources. -/
def WEXITSTATUS (s : Int) : Int := (((bits32 s &&& 0xff00) >>> 8 : Nat) : Int)

/-- Modelled from the spec: the `<sys/wait.h>` macro `WIFEXITED(s)`,
`(WTERMSIG(s) == 0)`, is a system header and not part of the repository sources. -/
def WIFEXITED (s : Int) : Bool := WTERMSIG s == 0

/-- Modelled from the spec: the `<sys/wait.h>` macro `WIFSIGNALED(s)`,
`(WTERMSIG((s)+1) >= 2)`, is a system header and not part of the repository sources.
The addition is a 32-bit `int` addition; `bits32` inside `WTERMSIG` reduces it
modulo `2 ^ 32`. -/
def WIFSIGNALED (s : Int) : Bool := decide (WTERMSIG (s + 1) ≥ 2)

/-- Modelled from the spec: the status word the kernel hands to `waitpid` for a process
that called `_exit(code)` (`W_EXITCODE(code, 0)`, only the low eight bits of the code
are kept).  Kernel behaviour, not part of the repository sources. -/
def exitStatusWord (code : Int) : Int := (((bits32 code &&& 0xff) <<< 8 : Nat) : Int)

/-- Modelled from the spec: the status word the kernel hands to `waitpid` for a process
killed by signal `sig` without a core dump (`W_EXITCODE(0, sig)`).  Kernel behaviour, not
part of the repository sources. -/
def signalStatusWord (sig : Int) : Int := ((bits32 sig &&& 0x7f : Nat) : Int)

/-! ## `waitForProcess` -/

/-- The embedding of `Java_org_bdcloud_clash_core_NativeHelper_waitForProcess`.
`result` is the value `waitpid(pid, &status, 0)` returned and `status` is the content of
the status word after the call.  The `LOGD` / `LOGE` lines do not influence the value
returned and are left out. -/
def waitForProcess (result status : Int) : Int :=
  if result < 0 then
    -999
  else if WIFEXITED status then
    WEXITSTATUS status
  else if WIFSIGNALED status then
    -(1000 + WTERMSIG status)
  else
    -998

/-! ## Process state and system calls -/

/-- The two flag sets with which the source calls `open` (both with mode `0644`). -/
inductive OpenMode
  | trunc    -- `O_WRONLY | O_CREAT | O_TRUNC`
  | append   -- `O_WRONLY | O_CREAT | O_APPEND`
  deriving DecidableEq, Repr

/-- What a slot of the descriptor table refers to. -/
inductive Handle
  | inherited (id : Nat)                      -- a resource that was open on entry
  | file (path : String) (mode : OpenMode)    -- a file opened by this code
  deriving DecidableEq, Repr

/-- The calls a process issues, with their arguments and (where one exists) the value
returned. -/
inductive Event
  | fork (ret : Int)
  | dup2 (oldfd newfd ret : Int)
  | close (fd ret : Int)
  | openFile (path : String) (mode : OpenMode) (ret : Int)
  | execv (path : String) (argv : List String)
  | dprintf (fd : Int) (text : String)
  | exit (code : Int)
  | kill (pid sig ret : Int)
  | usleep (usec ret : Int)
  | waitpid (pid : Int) (statusRequested : Bool) (options ret : Int)
  | logd (msg : String)
  | loge (msg : String)
  deriving DecidableEq, Repr

/-- The part of a process this code can observe or change. -/
structure Proc where
  /-- descriptor table: slot number to what it refers to, `none` for a free slot -/
  fds : Nat → Option Handle
  /-- descriptor numbers are below this bound (`RLIMIT_NOFILE`) -/
  limit : Nat
  errno : Int
  /-- contents of the files of the file system, `none` for a file that does not exist -/
  files : String → Option String
  /-- calls issued so far, oldest first -/
  trace : List Event

/-- Everything decided outside the process. -/
structure Env where
  /-- value `fork()` returns in the process that is followed: the child's pid in the
  parent, `0` in the new child, negative when no child was created -/
  forkReturn : Int
  /-- `errno` left by a failing `fork` -/
  forkErrno : Int
  /-- `some e` when the file system refuses to open the path with these flags -/
  openError : String → OpenMode → Option Int
  /-- `some e` when the image cannot be replaced, `none` when `execv` succeeds -/
  execvError : String → List String → Option Int
  /-- `some e` when `kill(pid, sig)` fails -/
  killError : Int → Int → Option Int
  /-- value returned by `usleep` -/
  usleepReturn : Int → Int
  /-- value returned by `waitpid(pid, NULL, options)` -/
  waitpidReturn : Int → Int → Int
  /-- the C library's `strerror` -/
  strerror : Int → String

/-- Modelled from the spec: the `<errno.h>` constant `EBADF` (system header, not part of
the repository sources; Linux value). -/
def EBADF : Int := 9

/-- Modelled from the spec: the `<errno.h>` constant `EMFILE` (system header, not part of
the repository sources; Linux value). -/
def EMFILE : Int := 24

/-- Modelled from the spec: the `<signal.h>` constant `SIGKILL`, the forced-termination
signal (system header, not part of the repository sources). -/
def SIGKILL : Int := 9

/-- Modelled from the spec: the `<signal.h>` constant `SIGTERM`, the graceful-termination
signal (system header, not part of the repository sources). -/
def SIGTERM : Int := 15

/-- Modelled from the spec: the `<sys/wait.h>` constant `WNOHANG`, the non-blocking option
of `waitpid` (system header, not part of the repository sources). -/
def WNOHANG : Int := 1

/-- Modelled from the spec: the `<unistd.h>` constant `STDOUT_FILENO`, the standard-output
slot (system header, not part of the repository sources). -/
def STDOUT_FILENO : Int := 1

/-- Modelled from the spec: the `<unistd.h>` constant `STDERR_FILENO`, the standard-error
slot (system header, not part of the repository sources). -/
def STDERR_FILENO : Int := 2

/-- Append a call to the list of calls issued. -/
def emit (e : Event) (p : Proc) : Proc := { p with trace := p.trace ++ [e] }

/-- Set one entry of a table indexed by a type with decidable equality. -/
def setSlot {α β : Type} [DecidableEq α] (t : α → β) (k : α) (v : β) : α → β :=
  fun j => if j = k then v else t j

/-- What descriptor number `fd` refers to; a negative number refers to nothing. -/
def lookup (p : Proc) (fd : Int) : Option Handle :=
  if fd < 0 then none else p.fds fd.toNat

/-- Modelled from the spec: the slot the operating system hands out for a new descriptor,
the lowest free one below the limit (kernel behaviour, not part of the repository
sources). -/
def lowestFree (p : Proc) : Option Nat :=
  (List.range p.limit).find? (fun i => (p.fds i).isNone)

/-- Modelled from the spec: the system call `dup2(oldfd, newfd)` (operating system, not
part of the repository sources).  It fails with `EBADF` when `oldfd` is not open or `newfd`
is out of range, does nothing when both are the same open descriptor, and otherwise
makes slot `newfd` (silently closed first) refer to what `oldfd` refers to. -/
def sys_dup2 (oldfd newfd : Int) (p : Proc) : Int × Proc :=
  match lookup p oldfd with
  | none => (-1, emit (.dup2 oldfd newfd (-1)) { p with errno := EBADF })
  | some h =>
    if newfd < 0 ∨ (p.limit : Int) ≤ newfd then
      (-1, emit (.dup2 oldfd newfd (-1)) { p with errno := EBADF })
    else if oldfd = newfd then
      (newfd, emit (.dup2 oldfd newfd newfd) p)
    else
      (newfd, emit (.dup2 oldfd newfd newfd)
        { p with fds := setSlot p.fds newfd.toNat (some h) })

/-- Modelled from the spec: the system call `close(fd)` (operating system, not part of the
repository sources).  It frees the slot, or fails with `EBADF` when the slot is not
open. -/
def sys_close (fd : Int) (p : Proc) : Int × Proc :=
  match lookup p fd with
  | none => (-1, emit (.close fd (-1)) { p with errno := EBADF })
  | some _ => (0, emit (.close fd 0) { p with fds := setSlot p.fds fd.toNat none })

/-- Modelled from the spec: the system call `open(path, flags, 0644)` (operating system,
not part of the repository sources) for the two flag sets of `OpenMode`: the lowest
free slot is taken (`EMFILE` when there is none), the file is created when missing and
emptied when the flags contain `O_TRUNC`. -/
def sys_open (env : Env) (path : String) (mode : OpenMode) (p : Proc) : Int × Proc :=
  match lowestFree p with
  | none => (-1, emit (.openFile path mode (-1)) { p with errno := EMFILE })
  | some fd =>
    match env.openError path mode with
    | some e => (-1, emit (.openFile path mode (-1)) { p with errno := e })
    | none =>
      (fd, emit (.openFile path mode fd)
        { p with
          fds := setSlot p.fds fd (some (.file path mode))
          files := setSlot p.files path
            (match mode with
             | .trunc => some ""
             | .append => some ((p.files path).getD "")) })

/-- Modelled from the spec: the C library call `dprintf(fd, ...)` (not part of the
repository sources) with the formatted `text`.  Through a descriptor opened
with `O_APPEND` the text lands at the end of the file; the data behind other descriptors
is not tracked. -/
def sys_dprintf (fd : Int) (text : String) (p : Proc) : Proc :=
  match lookup p fd with
  | some (.file path .append) =>
    emit (.dprintf fd text)
      { p with files := setSlot p.files path (some ((p.files path).getD "" ++ text)) }
  | _ => emit (.dprintf fd text) p

/-- Modelled from the spec: the system call `execv(path, argv)` (operating system, not
part of the repository sources): `true` when the image was replaced (the call does not
return), `false` when it returned `-1` with `errno` set. -/
def sys_execv (env : Env) (path : String) (argv : List String) (p : Proc) : Bool × Proc :=
  match env.execvError path argv with
  | none => (true, emit (.execv path argv) p)
  | some e => (false, emit (.execv path argv) { p with errno := e })

/-- Modelled from the spec: the system call `fork()` (operating system, not part of the
repository sources), seen from the process that is followed. -/
def sys_fork (env : Env) (p : Proc) : Int × Proc :=
  if env.forkReturn < 0 then
    (env.forkReturn, emit (.fork env.forkReturn) { p with errno := env.forkErrno })
  else
    (env.forkReturn, emit (.fork env.forkReturn) p)

/-- Modelled from the spec: the system call `kill(pid, sig)` (operating system, not part
of the repository sources). -/
def sys_kill (env : Env) (pid sig : Int) (p : Proc) : Int × Proc :=
  match env.killError pid sig with
  | none => (0, emit (.kill pid sig 0) p)
  | some e => (-1, emit (.kill pid sig (-1)) { p with errno := e })

/-- Modelled from the spec: the C library call `usleep(usec)` (not part of the repository
sources). -/
def sys_usleep (env : Env) (usec : Int) (p : Proc) : Int × Proc :=
  (env.usleepReturn usec, emit (.usleep usec (env.usleepReturn usec)) p)

/-- Modelled from the spec: the system call `waitpid(pid, NULL, options)` (operating
system, not part of the repository sources). -/
def sys_waitpid_null (env : Env) (pid options : Int) (p : Proc) : Int × Proc :=
  (env.waitpidReturn pid options,
    emit (.waitpid pid false options (env.waitpidReturn pid options)) p)

/-! ## `forkExecWithFd` -/

/-- A Java string reference together with what `GetStringUTFChars` yields for it
(`none` for `NULL`). -/
structure JString where
  chars : Option String

/-- Modelled from the spec: the JNI call `GetStringUTFChars(env, s, NULL)` (`<jni.h>`,
not part of the repository sources). -/
def GetStringUTFChars (s : JString) : Option String := s.chars

/-- How the execution of `forkExecWithFd` in one process ends. -/
inductive Outcome
  | returned (v : Int)                             -- `return v` to the JNI caller
  | execed (path : String) (argv : List String)    -- image replaced by `execv`
  | exited (code : Int)                            -- `_exit(code)`
  | undefined                                      -- `strdup(NULL)`
  deriving DecidableEq, Repr

/-- The loop filling `argv` (lines 31-36): `strdup` of each marshalled argument; `none`
when `GetStringUTFChars` yields `NULL` for one of them, which `strdup` is then applied
to.  Memory allocation (`calloc`, `strdup`) is taken to succeed. -/
def marshalArgs : List JString → Option (List String)
  | [] => some []
  | jarg :: rest =>
    match GetStringUTFChars jarg with
    | none => none
    | some arg =>
      match marshalArgs rest with
      | none => none
      | some argv => some (arg :: argv)

/-- Line 27: the log path is marshalled when a log string was passed; `NULL` otherwise
and when `GetStringUTFChars` fails. -/
def marshalLog (jlogPath : Option JString) : Option String :=
  match jlogPath with
  | some j => GetStringUTFChars j
  | none => none

/-- Child, lines 46-50: move the inherited descriptor to its target slot. -/
def remapFd (vpn_fd child_fd : Int) (p : Proc) : Proc :=
  if vpn_fd ≠ child_fd then
    let p := (sys_dup2 vpn_fd child_fd p).2
    (sys_close vpn_fd p).2
  else
    p

/-- Child, lines 52-60: redirect standard output and standard error to the log. -/
def redirectLog (env : Env) (logPath : Option String) (p : Proc) : Proc :=
  match logPath with
  | none => p
  | some lp =>
    let r := sys_open env lp .trunc p
    let logfd := r.1
    if logfd ≥ 0 then
      let p := (sys_dup2 logfd STDOUT_FILENO r.2).2
      let p := (sys_dup2 logfd STDERR_FILENO p).2
      (sys_close logfd p).2
    else
      r.2

/-- Child, lines 46-60: the state in which `execv` is called. -/
def childSetup (env : Env) (vpn_fd child_fd : Int) (logPath : Option String) (p : Proc) :
    Proc :=
  redirectLog env logPath (remapFd vpn_fd child_fd p)

/-- The text `dprintf` produces from `"execv failed: %s (errno=%d)\n"`. -/
def execvFailedLine (env : Env) (errno : Int) : String :=
  "execv failed: " ++ env.strerror errno ++ " (errno=" ++ toString errno ++ ")\n"

/-- Child, lines 65-73: `execv` has returned. -/
def execFailed (env : Env) (logPath : Option String) (p : Proc) : Outcome × Proc :=
  let p :=
    match logPath with
    | none => p
    | some lp =>
      let r := sys_open env lp .append p
      let logfd := r.1
      if logfd ≥ 0 then
        let p := sys_dprintf logfd (execvFailedLine env r.2.errno) r.2
        (sys_close logfd p).2
      else
        r.2
  (.exited 127, emit (.exit 127) p)

/-- Child, lines 44-74. -/
def childBranch (env : Env) (vpn_fd child_fd : Int) (path : String) (argv : List String)
    (logPath : Option String) (p : Proc) : Outcome × Proc :=
  let r := sys_execv env path argv (childSetup env vpn_fd child_fd logPath p)
  if r.1 then (.execed path argv, r.2) else execFailed env logPath r.2

/-- The embedding of `Java_org_bdcloud_clash_core_NativeHelper_forkExecWithFd`, followed
in the process `p` in which `fork()` returns `env.forkReturn`.  Releasing the strings and
freeing `argv` in the parent (lines 77-80) changes nothing of `Proc` and is left out. -/
def forkExecWithFd (env : Env) (vpn_fd child_fd : Int) (jpath : JString)
    (jargs : List JString) (jlogPath : Option JString) (p : Proc) : Outcome × Proc :=
  match GetStringUTFChars jpath with
  | none => (.returned (-1), p)
  | some path =>
    let logPath := marshalLog jlogPath
    match marshalArgs jargs with
    | none => (.undefined, p)
    | some argv =>
      let p := emit (.logd ("Forking: " ++ path ++ " (vpn_fd=" ++ toString vpn_fd ++
        " -> child_fd=" ++ toString child_fd ++ ")")) p
      let r := sys_fork env p
      let pid := r.1
      if pid = 0 then
        childBranch env vpn_fd child_fd path argv logPath r.2
      else if pid < 0 then
        (.returned (-1), emit (.loge ("fork() failed: " ++ env.strerror r.2.errno)) r.2)
      else
        (.returned pid, emit (.logd ("Child started with PID " ++ toString pid)) r.2)

/-! ## `killProcess` -/

/-- The embedding of `Java_org_bdcloud_clash_core_NativeHelper_killProcess`. -/
def killProcess (env : Env) (pid : Int) (p : Proc) : Proc :=
  if pid > 0 then
    let p := (sys_kill env pid SIGTERM p).2
    let p := (sys_usleep env 500000 p).2
    let p := (sys_kill env pid SIGKILL p).2
    let p := (sys_waitpid_null env pid WNOHANG p).2
    emit (.logd ("Killed process " ++ toString pid)) p
  else
    p

/-- The calls of a trace that are not log lines. -/
def systemCalls (tr : List Event) : List Event :=
  tr.filter (fun e => match e with
    | .logd _ => false
    | .loge _ => false
    | _ => true)

/-- The calls issued between a state `p` and a later state `q` of the same process: what
was added to the list of calls. -/
def issued (p q : Proc) : List Event := q.trace.drop p.trace.length

/-- Whether a call is a truncating `open` that returned a descriptor: the log file of
lines 52-60 was opened. -/
def opensLog (e : Event) : Bool :=
  match e with
  | .openFile _ .trunc ret => decide (0 ≤ ret)
  | _ => false

/-- Whether the child, arriving at lines 52-60 in state `p`, gets a log file opened. -/
def logOpened (env : Env) (logPath : Option String) (p : Proc) : Bool :=
  match logPath with
  | none => false
  | some lp => decide (0 ≤ (sys_open env lp .trunc p).1)

/-! ## Concrete scenarios -/

/-- A caller with the three standard descriptors and descriptor 3 open. -/
def callerProc : Proc where
  fds := fun n => if n < 4 then some (.inherited n) else none
  limit := 1024
  errno := 0
  files := fun _ => none
  trace := []

/-- A caller whose standard output (slot 1) is closed; slots 0, 2 and 3 are open. -/
def closedStdoutProc : Proc where
  fds := fun n => if n = 0 ∨ n = 2 ∨ n = 3 then some (.inherited n) else none
  limit := 1024
  errno := 0
  files := fun _ => none
  trace := []

/-- A caller whose standard input (slot 0) is closed; slots 1, 2 and 3 are open. -/
def closedStdinProc : Proc where
  fds := fun n => if n = 1 ∨ n = 2 ∨ n = 3 then some (.inherited n) else none
  limit := 1024
  errno := 0
  files := fun _ => none
  trace := []

/-- Followed in the child (`fork` returns 0); every file can be opened, every `execv`
fails with `ENOENT` (2). -/
def childEnv : Env where
  forkReturn := 0
  forkErrno := 0
  openError := fun _ _ => none
  execvError := fun _ _ => some 2
  killError := fun _ _ => none
  usleepReturn := fun _ => 0
  waitpidReturn := fun _ _ => 0
  strerror := fun e => if e = 2 then "No such file or directory" else "Unknown error"

/-- Followed in the parent: `fork` returns the pid 4321 of the new child. -/
def parentEnv : Env := { childEnv with forkReturn := 4321 }

/-- No child can be created: `fork` returns `-1` with `EAGAIN` (11). -/
def forkFailEnv : Env := { childEnv with forkReturn := -1, forkErrno := 11 }

/-- The executable of the scenarios. -/
def tunPath : JString := ⟨some "/data/app/libtun2socks.so"⟩

/-- The argument strings of the scenarios. -/
def tunArgs : List JString := [⟨some "libtun2socks.so"⟩, ⟨some "--tunfd"⟩, ⟨some "3"⟩]

/-- The log file of the scenarios. -/
def tunLog : JString := ⟨some "/data/app/tun2socks.log"⟩

/-- As `childEnv`, but every `execv` succeeds. -/
def execOkEnv : Env := { childEnv with execvError := fun _ _ => none }

/-- A path string for which `GetStringUTFChars` yields `NULL`. -/
def unreadablePath : JString := ⟨none⟩

/-! ## Arithmetic of the status macros -/

theorem bits32_lt (x : Int) : bits32 x < 2 ^ 32 := by
  unfold bits32
  have h1 : 0 ≤ x % 2 ^ 32 := Int.emod_nonneg _ (by norm_num)
  have h2 : x % 2 ^ 32 < 2 ^ 32 := Int.emod_lt_of_pos _ (by norm_num)
  omega

theorem bits32_cast (x : Int) : ((bits32 x : Nat) : Int) = x % 2 ^ 32 := by
  unfold bits32
  exact Int.toNat_of_nonneg (Int.emod_nonneg _ (by norm_num))

theorem WTERMSIG_eq_mod (s : Int) : WTERMSIG s = s % 128 := by
  unfold WTERMSIG
  have h : bits32 s &&& 0x7f = bits32 s % 2 ^ 7 := Nat.and_pow_two_sub_one_eq_mod _ 7
  rw [h]
  have hc := bits32_cast s
  push_cast
  omega

theorem WEXITSTATUS_eq (s : Int) : WEXITSTATUS s = (s / 256) % 256 := by
  unfold WEXITSTATUS
  have h : (bits32 s &&& 0xff00) >>> 8 = (bits32 s >>> 8) &&& 0xff := by
    apply Nat.eq_of_testBit_eq
    intro i
    have hc : (0xff00 : Nat) = 0xff <<< 8 := by decide
    rw [Nat.testBit_shiftRight, Nat.testBit_and, Nat.testBit_and, Nat.testBit_shiftRight, hc,
      Nat.testBit_shiftLeft]
    simp
  rw [h]
  have h2 : (bits32 s >>> 8) &&& 0xff = (bits32 s >>> 8) % 2 ^ 8 :=
    Nat.and_pow_two_sub_one_eq_mod _ 8
  rw [h2, Nat.shiftRight_eq_div_pow]
  have hc := bits32_cast s
  push_cast
  omega

theorem WIFEXITED_iff (s : Int) : WIFEXITED s = true ↔ s % 128 = 0 := by
  unfold WIFEXITED
  rw [WTERMSIG_eq_mod]
  simp

theorem WIFSIGNALED_iff (s : Int) : WIFSIGNALED s = true ↔ 1 ≤ s % 128 ∧ s % 128 ≤ 126 := by
  unfold WIFSIGNALED
  rw [WTERMSIG_eq_mod]
  simp only [decide_eq_true_eq]
  omega

theorem WEXITSTATUS_alt (s : Int) :
    WEXITSTATUS s = (((bits32 s >>> 8) &&& 0xff : Nat) : Int) := by
  rw [WEXITSTATUS_eq]
  have h2 : (bits32 s >>> 8) &&& 0xff = (bits32 s >>> 8) % 2 ^ 8 :=
    Nat.and_pow_two_sub_one_eq_mod _ 8
  rw [h2, Nat.shiftRight_eq_div_pow]
  have hc := bits32_cast s
  push_cast
  omega

theorem exitStatusWord_eq (c : Int) : exitStatusWord c = (c % 256) * 256 := by
  unfold exitStatusWord
  have h : bits32 c &&& 0xff = bits32 c % 2 ^ 8 := Nat.and_pow_two_sub_one_eq_mod _ 8
  rw [h, Nat.shiftLeft_eq]
  have hc := bits32_cast c
  push_cast
  omega

theorem signalStatusWord_eq (sig : Int) : signalStatusWord sig = sig % 128 := by
  unfold signalStatusWord
  have h : bits32 sig &&& 0x7f = bits32 sig % 2 ^ 7 := Nat.and_pow_two_sub_one_eq_mod _ 7
  rw [h]
  have hc := bits32_cast sig
  push_cast
  omega

/-! ## `waitForProcess`: the claims -/

/-- C1: when `waitpid` succeeded and the status denotes death by a signal, the value
returned is exactly `-(1000 + s)` for `s = WTERMSIG status`, and `1 ≤ s ≤ 126`. -/
theorem waitForProcess_signaled (result status : Int) (hres : 0 ≤ result)
    (hsig : WIFSIGNALED status = true) :
    waitForProcess result status = -(1000 + WTERMSIG status) ∧
      1 ≤ WTERMSIG status ∧ WTERMSIG status ≤ 126 := by
  have hs := (WIFSIGNALED_iff status).1 hsig
  have hex : WIFEXITED status = false := by
    rw [Bool.eq_false_iff, Ne, WIFEXITED_iff]
    omega
  have hres2 : ¬ result < 0 := by omega
  refine ⟨?_, ?_, ?_⟩
  · simp [waitForProcess, hres2, hex, hsig]
  · rw [WTERMSIG_eq_mod]; exact hs.1
  · rw [WTERMSIG_eq_mod]; exact hs.2

/-- Witness for C1: `SIGSEGV` (11) with the core-dump flag set, status word `0x8b`. -/
theorem waitForProcess_signaled_witness :
    waitForProcess 4321 0x8b = -(1000 + WTERMSIG 0x8b) ∧
      1 ≤ WTERMSIG 0x8b ∧ WTERMSIG 0x8b ≤ 126 :=
  waitForProcess_signaled 4321 0x8b (by decide) (by decide)

/-- The two examples of the source and the spec: `SIGKILL` gives `-1009`, `SIGSEGV` gives
`-1011`. -/
theorem waitForProcess_SIGKILL_SIGSEGV :
    waitForProcess 4321 (signalStatusWord SIGKILL) = -1009 ∧
      waitForProcess 4321 (signalStatusWord 11) = -1011 := by
  decide

/-- C2: when `waitpid` succeeded and the status denotes a normal exit, the value returned
is the exit status `(status >> 8) & 0xff` unmodified, it lies in `0..255`, and for a
process that called `exit(c)` with `c` in `0..255` it is `c`. -/
theorem waitForProcess_exited (result status : Int) (hres : 0 ≤ result)
    (hex : WIFEXITED status = true) :
    waitForProcess result status = WEXITSTATUS status ∧
      WEXITSTATUS status = (((bits32 status >>> 8) &&& 0xff : Nat) : Int) ∧
      0 ≤ waitForProcess result status ∧ waitForProcess result status ≤ 255 ∧
      ∀ c : Int, 0 ≤ c → c ≤ 255 →
        WIFEXITED (exitStatusWord c) = true ∧ waitForProcess result (exitStatusWord c) = c := by
  have hres2 : ¬ result < 0 := by omega
  have hv : waitForProcess result status = WEXITSTATUS status := by
    simp [waitForProcess, hres2, hex]
  refine ⟨hv, WEXITSTATUS_alt status, ?_, ?_, ?_⟩
  · rw [hv, WEXITSTATUS_eq]; omega
  · rw [hv, WEXITSTATUS_eq]; omega
  · intro c hc0 hc1
    have hw : WIFEXITED (exitStatusWord c) = true := by
      rw [WIFEXITED_iff, exitStatusWord_eq]; omega
    refine ⟨hw, ?_⟩
    simp only [waitForProcess, hres2, hw, if_true, if_false]
    rw [WEXITSTATUS_eq, exitStatusWord_eq]
    omega

/-- Witness for C2: the status word `0x2a00` of a process that called `exit(42)`. -/
theorem waitForProcess_exited_witness :
    waitForProcess 4321 0x2a00 = WEXITSTATUS 0x2a00 ∧
      WEXITSTATUS 0x2a00 = (((bits32 0x2a00 >>> 8) &&& 0xff : Nat) : Int) ∧
      0 ≤ waitForProcess 4321 0x2a00 ∧ waitForProcess 4321 0x2a00 ≤ 255 ∧
      ∀ c : Int, 0 ≤ c → c ≤ 255 →
        WIFEXITED (exitStatusWord c) = true ∧ waitForProcess 4321 (exitStatusWord c) = c :=
  waitForProcess_exited 4321 0x2a00 (by decide) (by decide)

/-- The example of the spec: a program that calls `exit(42)` yields 42. -/
theorem waitForProcess_exit_42 : waitForProcess 4321 (exitStatusWord 42) = 42 := by
  decide

/-- C3: the value returned is the wait-failure sentinel `-999` exactly when `waitpid`
returned a negative result, whatever the status word contains. -/
theorem waitForProcess_sentinel_iff (result status : Int) :
    waitForProcess result status = -999 ↔ result < 0 := by
  constructor
  · intro h
    by_contra hres
    by_cases hex : WIFEXITED status = true
    · have hv : waitForProcess result status = WEXITSTATUS status := by
        simp [waitForProcess, hres, hex]
      rw [hv, WEXITSTATUS_eq] at h
      omega
    · by_cases hsig : WIFSIGNALED status = true
      · have hv : waitForProcess result status = -(1000 + WTERMSIG status) := by
          simp [waitForProcess, hres, hex, hsig]
        rw [hv, WTERMSIG_eq_mod] at h
        omega
      · have hv : waitForProcess result status = -998 := by
          simp [waitForProcess, hres, hex, hsig]
        rw [hv] at h
        omega
  · intro hres
    simp [waitForProcess, hres]

/-- C4, counterexample: for a successful `waitpid` whose status word is that of a stopped
child (`SIGSTOP`, `0x137f`) the value returned is `-998`, which is neither non-negative,
nor at most `-1000`, nor the wait-failure sentinel `-999`. -/
theorem waitForProcess_stopped_not_documented :
    waitForProcess 4321 0x137f = -998 ∧
      ¬ (0 ≤ waitForProcess 4321 0x137f ∨ waitForProcess 4321 0x137f ≤ -1000 ∨
        waitForProcess 4321 0x137f = -999) := by
  decide

/-- C4, amended: for every `waitpid` result and every status word the value returned is an
exit code in `0..255`, a signal code in `-1126..-1001`, the wait-failure sentinel `-999`,
or `-998`; and it is `-998` exactly when `waitpid` succeeded and the low seven bits of
the status word are `0x7f` (neither a normal exit nor death by a signal). -/
theorem waitForProcess_range (result status : Int) :
    ((0 ≤ waitForProcess result status ∧ waitForProcess result status ≤ 255) ∨
      (-1126 ≤ waitForProcess result status ∧ waitForProcess result status ≤ -1001) ∨
      waitForProcess result status = -999 ∨ waitForProcess result status = -998) ∧
    (waitForProcess result status = -998 ↔ 0 ≤ result ∧ WTERMSIG status = 0x7f) := by
  rw [WTERMSIG_eq_mod]
  by_cases hres : result < 0
  · have hv : waitForProcess result status = -999 := by simp [waitForProcess, hres]
    rw [hv]
    omega
  · by_cases hex : WIFEXITED status = true
    · have hv : waitForProcess result status = WEXITSTATUS status := by
        simp [waitForProcess, hres, hex]
      have h0 := (WIFEXITED_iff status).1 hex
      rw [hv, WEXITSTATUS_eq]
      omega
    · by_cases hsig : WIFSIGNALED status = true
      · have hv : waitForProcess result status = -(1000 + WTERMSIG status) := by
          simp [waitForProcess, hres, hex, hsig]
        have h0 := (WIFSIGNALED_iff status).1 hsig
        rw [hv, WTERMSIG_eq_mod]
        omega
      · have hv : waitForProcess result status = -998 := by
          simp [waitForProcess, hres, hex, hsig]
        have h0 : ¬ status % 128 = 0 := fun h => hex ((WIFEXITED_iff status).2 h)
        have h1 : ¬ (1 ≤ status % 128 ∧ status % 128 ≤ 126) :=
          fun h => hsig ((WIFSIGNALED_iff status).2 h)
        rw [hv]
        omega

/-- C8, counterexample: for a process killed by `SIGSEGV` (signal 11) the value returned
is `-1011`, not the negated signal number `-11`. -/
theorem waitForProcess_SIGSEGV_not_negated :
    WIFSIGNALED (signalStatusWord 11) = true ∧ WTERMSIG (signalStatusWord 11) = 11 ∧
      waitForProcess 4321 (signalStatusWord 11) = -1011 ∧
      waitForProcess 4321 (signalStatusWord 11) ≠ -11 := by
  decide

/-- C8, amended: for a process killed by signal `s` the value returned is `-(1000 + s)`,
which is never `-s`; a positive value returned is the exit code of a normal exit. -/
theorem waitForProcess_doc (result status : Int) (hres : 0 ≤ result) :
    (WIFSIGNALED status = true →
      waitForProcess result status = -(1000 + WTERMSIG status) ∧
      waitForProcess result status ≠ -(WTERMSIG status)) ∧
    (0 < waitForProcess result status →
      WIFEXITED status = true ∧ waitForProcess result status = WEXITSTATUS status) := by
  have hres2 : ¬ result < 0 := by omega
  constructor
  · intro hsig
    have hs := (WIFSIGNALED_iff status).1 hsig
    have hex : WIFEXITED status = false := by
      rw [Bool.eq_false_iff, Ne, WIFEXITED_iff]
      omega
    have hv : waitForProcess result status = -(1000 + WTERMSIG status) := by
      simp [waitForProcess, hres2, hex, hsig]
    refine ⟨hv, ?_⟩
    rw [hv]
    omega
  · intro hpos
    by_cases hex : WIFEXITED status = true
    · refine ⟨hex, ?_⟩
      simp [waitForProcess, hres2, hex]
    · exfalso
      by_cases hsig : WIFSIGNALED status = true
      · have hv : waitForProcess result status = -(1000 + WTERMSIG status) := by
          simp [waitForProcess, hres2, hex, hsig]
        have h0 := (WIFSIGNALED_iff status).1 hsig
        rw [hv, WTERMSIG_eq_mod] at hpos
        omega
      · have hv : waitForProcess result status = -998 := by
          simp [waitForProcess, hres2, hex, hsig]
        rw [hv] at hpos
        omega

/-- Witness for C8: a successful `waitpid` (result 4321) with the status word of a process
killed by `SIGSEGV` for the first part, and of a process that called `exit(42)` for the
second. -/
theorem waitForProcess_doc_witness :
    (waitForProcess 4321 11 = -(1000 + WTERMSIG 11) ∧
      waitForProcess 4321 11 ≠ -(WTERMSIG 11)) ∧
    (WIFEXITED 0x2a00 = true ∧ waitForProcess 4321 0x2a00 = WEXITSTATUS 0x2a00) :=
  ⟨(waitForProcess_doc 4321 11 (by decide)).1 (by decide),
    (waitForProcess_doc 4321 0x2a00 (by decide)).2 (by decide)⟩

/-! ## `killProcess`: the claims -/

/-- C6: for `pid ≤ 0` `killProcess` issues no call at all and leaves the state as it is;
for `pid > 0`, whatever the calls return, it issues exactly `kill(pid, SIGTERM)`,
`usleep(500000)`, `kill(pid, SIGKILL)`, `waitpid(pid, NULL, WNOHANG)` in this order,
followed by one debug log line. -/
theorem killProcess_calls (env : Env) (pid : Int) (p : Proc) :
    (pid ≤ 0 → killProcess env pid p = p) ∧
    (0 < pid →
      (∃ r1 r2 r3 r4 : Int,
        (killProcess env pid p).trace = p.trace ++
          [Event.kill pid SIGTERM r1, Event.usleep 500000 r2, Event.kill pid SIGKILL r3,
            Event.waitpid pid false WNOHANG r4,
            Event.logd ("Killed process " ++ toString pid)]) ∧
      (∃ r1 r2 r3 r4 : Int,
        systemCalls (killProcess env pid p).trace = systemCalls p.trace ++
          [Event.kill pid 15 r1, Event.usleep 500000 r2, Event.kill pid 9 r3,
            Event.waitpid pid false 1 r4])) := by
  constructor
  · intro h
    have h2 : ¬ pid > 0 := by omega
    simp [killProcess, h2]
  · intro h
    have ht : (killProcess env pid p).trace = p.trace ++
        [Event.kill pid SIGTERM (sys_kill env pid SIGTERM p).1,
          Event.usleep 500000 (env.usleepReturn 500000),
          Event.kill pid SIGKILL (sys_kill env pid SIGKILL p).1,
          Event.waitpid pid false WNOHANG (env.waitpidReturn pid WNOHANG),
          Event.logd ("Killed process " ++ toString pid)] := by
      simp only [killProcess, h, gt_iff_lt, if_true]
      unfold sys_kill
      cases env.killError pid SIGTERM <;> cases env.killError pid SIGKILL <;>
        simp [emit, sys_usleep, sys_waitpid_null]
    refine ⟨⟨_, _, _, _, ht⟩, ⟨(sys_kill env pid SIGTERM p).1, env.usleepReturn 500000,
      (sys_kill env pid SIGKILL p).1, env.waitpidReturn pid WNOHANG, ?_⟩⟩
    rw [ht]
    simp [systemCalls, SIGTERM, SIGKILL, WNOHANG]

/-- Witness for C6: pid 0 and pid 4321 in the caller `callerProc`. -/
theorem killProcess_calls_witness :
    killProcess childEnv 0 callerProc = callerProc ∧
    (∃ r1 r2 r3 r4 : Int,
      systemCalls (killProcess childEnv 4321 callerProc).trace = systemCalls callerProc.trace ++
        [Event.kill 4321 15 r1, Event.usleep 500000 r2, Event.kill 4321 9 r3,
          Event.waitpid 4321 false 1 r4]) :=
  ⟨(killProcess_calls childEnv 0 callerProc).1 (by decide),
    ((killProcess_calls childEnv 4321 callerProc).2 (by decide)).2⟩

/-! ## Descriptor table lemmas -/

theorem lookup_emit (e : Event) (p : Proc) (k : Int) : lookup (emit e p) k = lookup p k := rfl

theorem lookup_setSlot (p : Proc) (n : Nat) (v : Option Handle) (k : Int) (e : Int)
    (fs : String → Option String) (tr : List Event) :
    lookup { fds := setSlot p.fds n v, limit := p.limit, errno := e, files := fs, trace := tr } k
      = if k = (n : Int) then v else lookup p k := by
  unfold lookup setSlot
  by_cases hk : k < 0
  · have : k ≠ (n : Int) := by omega
    simp [hk, this]
  · simp only [hk, if_false]
    by_cases hkn : k = (n : Int)
    · subst hkn
      simp
    · have : k.toNat ≠ n := by omega
      simp [hkn, this]

theorem dup2_limit (a b : Int) (p : Proc) : (sys_dup2 a b p).2.limit = p.limit := by
  unfold sys_dup2
  split
  · rfl
  · split_ifs <;> rfl

theorem dup2_lookup_ne (a b k : Int) (p : Proc) (hk : k ≠ b) :
    lookup (sys_dup2 a b p).2 k = lookup p k := by
  unfold sys_dup2
  split
  · rfl
  · split_ifs with h1 h2
    · rfl
    · rfl
    · rw [lookup_emit, lookup_setSlot]
      have : k ≠ ((b.toNat : Nat) : Int) := by omega
      rw [if_neg this]

theorem dup2_lookup_ok (a b : Int) (p : Proc) (h : Handle) (ha : lookup p a = some h)
    (hb0 : 0 ≤ b) (hb1 : b < p.limit) : lookup (sys_dup2 a b p).2 b = some h := by
  unfold sys_dup2
  rw [ha]
  have h1 : ¬ (b < 0 ∨ (p.limit : Int) ≤ b) := by omega
  simp only [h1, if_false]
  split_ifs with h2
  · rw [lookup_emit, ← h2, ha]
  · rw [lookup_emit, lookup_setSlot]
    have : b = ((b.toNat : Nat) : Int) := by omega
    rw [if_pos this]

theorem close_limit (fd : Int) (p : Proc) : (sys_close fd p).2.limit = p.limit := by
  unfold sys_close
  split <;> rfl

theorem close_lookup (fd k : Int) (p : Proc) :
    lookup (sys_close fd p).2 k = if k = fd then none else lookup p k := by
  unfold sys_close
  split
  · rename_i hnone
    rw [lookup_emit]
    by_cases hk : k = fd
    · subst hk
      simpa [lookup] using hnone
    · simp [hk, lookup]
  · rename_i h hsome
    rw [lookup_emit, lookup_setSlot]
    have hfd : 0 ≤ fd := by
      by_contra hneg
      simp [lookup, show fd < 0 by omega] at hsome
    have : ((fd.toNat : Nat) : Int) = fd := by omega
    rw [this]

theorem lowestFree_spec (p : Proc) (fd : Nat) (h : lowestFree p = some fd) :
    p.fds fd = none ∧ fd < p.limit := by
  unfold lowestFree at h
  have h1 := List.find?_some h
  have h2 := List.mem_of_find?_eq_some h
  simp only [Option.isNone_iff_eq_none] at h1
  exact ⟨h1, List.mem_range.1 h2⟩

/-- What `open` does to the descriptor table: either it fails and the table is as before,
or it returns a slot that was free, which now refers to the file. -/
theorem open_spec (env : Env) (path : String) (mode : OpenMode) (p : Proc) :
    ((sys_open env path mode p).1 = -1 ∧ (sys_open env path mode p).2.fds = p.fds ∧
        (sys_open env path mode p).2.files = p.files ∧
        (sys_open env path mode p).2.limit = p.limit) ∨
      ∃ fd : Nat, (sys_open env path mode p).1 = (fd : Int) ∧ lookup p fd = none ∧
        (sys_open env path mode p).2.limit = p.limit ∧
        ∀ k : Int, lookup (sys_open env path mode p).2 k =
          if k = (fd : Int) then some (Handle.file path mode) else lookup p k := by
  unfold sys_open
  cases hfree : lowestFree p with
  | none => left; exact ⟨rfl, rfl, rfl, rfl⟩
  | some fd =>
    cases herr : env.openError path mode with
    | some e => left; exact ⟨rfl, rfl, rfl, rfl⟩
    | none =>
      right
      have hs := lowestFree_spec p fd hfree
      refine ⟨fd, rfl, ?_, rfl, ?_⟩
      · simp [lookup, hs.1]
      · intro k
        simp only []
        rw [lookup_emit, lookup_setSlot]

theorem remapFd_target (vpn_fd child_fd : Int) (p : Proc) (h : Handle)
    (hX : lookup p vpn_fd = some h) (hY0 : 0 ≤ child_fd) (hY1 : child_fd < p.limit) :
    lookup (remapFd vpn_fd child_fd p) child_fd = some h := by
  unfold remapFd
  split_ifs with hne
  · simp only []
    rw [close_lookup, if_neg (Ne.symm hne)]
    exact dup2_lookup_ok vpn_fd child_fd p h hX hY0 hY1
  · have : vpn_fd = child_fd := by
      by_contra hc
      exact hne hc
    rw [← this]
    exact hX

theorem remapFd_source (vpn_fd child_fd : Int) (p : Proc) (hne : vpn_fd ≠ child_fd) :
    lookup (remapFd vpn_fd child_fd p) vpn_fd = none := by
  unfold remapFd
  simp only [hne, ne_eq, not_false_eq_true, if_true]
  rw [close_lookup, if_pos rfl]

theorem redirectLog_not_opened (env : Env) (logPath : Option String) (p : Proc)
    (hlog : logOpened env logPath p = false) : (redirectLog env logPath p).fds = p.fds := by
  cases logPath with
  | none => rfl
  | some lp =>
    simp only [logOpened, decide_eq_false_iff_not] at hlog
    simp only [redirectLog, ge_iff_le, hlog, if_false]
    rcases open_spec env lp .trunc p with ⟨_, hfds, _, _⟩ | ⟨fd, hfd, _, _, _⟩
    · exact hfds
    · exfalso
      rw [hfd] at hlog
      omega

theorem redirectLog_other (env : Env) (logPath : Option String) (p : Proc) (k : Int)
    (h1 : k ≠ 1) (h2 : k ≠ 2) :
    lookup (redirectLog env logPath p) k = lookup p k ∨
      (lookup p k = none ∧ lookup (redirectLog env logPath p) k = none) := by
  cases logPath with
  | none => left; rfl
  | some lp =>
    simp only [redirectLog]
    rcases open_spec env lp .trunc p with ⟨hret, hfds, _, _⟩ | ⟨fd, hfd, hfree, _, hlk⟩
    · left
      rw [hret]
      simp only [ge_iff_le, show ¬ (0 : Int) ≤ -1 by omega, if_false]
      simp only [lookup, hfds]
    · have hge : (sys_open env lp .trunc p).1 ≥ 0 := by rw [hfd]; omega
      simp only [hge, if_true]
      rw [close_lookup, dup2_lookup_ne _ _ _ _ (by simpa [STDERR_FILENO] using h2),
        dup2_lookup_ne _ _ _ _ (by simpa [STDOUT_FILENO] using h1), hlk, hfd]
      by_cases hk : k = (fd : Int)
      · right
        subst hk
        simp [hfree]
      · left
        simp [hk]

/-! ## `forkExecWithFd`: the child and the parent -/

/-- In the process where `fork` returns 0 the function continues as `childBranch`, in a
state that has the descriptor table, limit and files of the caller. -/
theorem forkExecWithFd_child (env : Env) (vpn_fd child_fd : Int) (jpath : JString)
    (jargs : List JString) (jlogPath : Option JString) (p : Proc) (path : String)
    (argv : List String) (hpath : GetStringUTFChars jpath = some path)
    (hargs : marshalArgs jargs = some argv) (hfork : env.forkReturn = 0) :
    ∃ c : Proc, c.fds = p.fds ∧ c.limit = p.limit ∧ c.files = p.files ∧
      forkExecWithFd env vpn_fd child_fd jpath jargs jlogPath p =
        childBranch env vpn_fd child_fd path argv (marshalLog jlogPath) c := by
  refine ⟨(sys_fork env (emit (.logd ("Forking: " ++ path ++ " (vpn_fd=" ++ toString vpn_fd ++
        " -> child_fd=" ++ toString child_fd ++ ")")) p)).2, ?_, ?_, ?_, ?_⟩
  · simp [sys_fork, hfork, emit]
  · simp [sys_fork, hfork, emit]
  · simp [sys_fork, hfork, emit]
  · simp [forkExecWithFd, hpath, hargs, sys_fork, hfork]

/-- In the process where `fork` does not return 0 the descriptor table is not touched. -/
theorem forkExecWithFd_parent_fds (env : Env) (vpn_fd child_fd : Int) (jpath : JString)
    (jargs : List JString) (jlogPath : Option JString) (p : Proc)
    (hfork : env.forkReturn ≠ 0) :
    (forkExecWithFd env vpn_fd child_fd jpath jargs jlogPath p).2.fds = p.fds := by
  unfold forkExecWithFd
  cases hpath : GetStringUTFChars jpath with
  | none => rfl
  | some path =>
    cases hargs : marshalArgs jargs with
    | none => rfl
    | some argv =>
      simp only []
      by_cases hneg : env.forkReturn < 0
      · simp [sys_fork, hfork, hneg, emit]
      · simp [sys_fork, hfork, hneg, emit]

theorem childSetup_target (env : Env) (vpn_fd child_fd : Int) (logPath : Option String)
    (p : Proc) (h : Handle) (hX : lookup p vpn_fd = some h) (hY0 : 0 ≤ child_fd)
    (hY1 : child_fd < p.limit)
    (hlog : logOpened env logPath (remapFd vpn_fd child_fd p) = false ∨
      (child_fd ≠ 1 ∧ child_fd ≠ 2)) :
    lookup (childSetup env vpn_fd child_fd logPath p) child_fd = some h := by
  have ht := remapFd_target vpn_fd child_fd p h hX hY0 hY1
  unfold childSetup
  rcases hlog with hno | ⟨h1, h2⟩
  · have := redirectLog_not_opened env logPath _ hno
    simp only [lookup, this]
    exact ht
  · rcases redirectLog_other env logPath (remapFd vpn_fd child_fd p) child_fd h1 h2 with
      heq | ⟨hnone, _⟩
    · rw [heq]; exact ht
    · rw [ht] at hnone
      cases hnone

theorem childSetup_source (env : Env) (vpn_fd child_fd : Int) (logPath : Option String)
    (p : Proc) (hne : vpn_fd ≠ child_fd)
    (hlog : logOpened env logPath (remapFd vpn_fd child_fd p) = false ∨
      (vpn_fd ≠ 1 ∧ vpn_fd ≠ 2)) :
    lookup (childSetup env vpn_fd child_fd logPath p) vpn_fd = none := by
  have hs := remapFd_source vpn_fd child_fd p hne
  unfold childSetup
  rcases hlog with hno | ⟨h1, h2⟩
  · have := redirectLog_not_opened env logPath _ hno
    simp only [lookup, this]
    exact hs
  · rcases redirectLog_other env logPath (remapFd vpn_fd child_fd p) vpn_fd h1 h2 with
      heq | ⟨_, hnone⟩
    · rw [heq]; exact hs
    · exact hnone

/-- C9, counterexample: the caller has descriptors 0 to 3 open, the inherited descriptor
is 3, the target slot is 1 and a log path is supplied and can be opened.  When the child
calls `execv`, slot 1 refers to the log file and not to what descriptor 3 referred to at
fork time. -/
theorem childSetup_target_slot_overwritten :
    lookup callerProc 3 = some (Handle.inherited 3) ∧
      lookup (childSetup execOkEnv 3 1 (marshalLog (some tunLog)) callerProc) 1 =
        some (Handle.file "/data/app/tun2socks.log" OpenMode.trunc) ∧
      (forkExecWithFd execOkEnv 3 1 tunPath tunArgs (some tunLog) callerProc).1 =
        Outcome.execed "/data/app/libtun2socks.so" ["libtun2socks.so", "--tunfd", "3"] ∧
      lookup (forkExecWithFd execOkEnv 3 1 tunPath tunArgs (some tunLog) callerProc).2 1 =
        some (Handle.file "/data/app/tun2socks.log" OpenMode.trunc) := by
  refine ⟨?_, ?_, ?_, ?_⟩ <;> rfl

/-- The second way the log redirection interferes with the remap: the caller has standard
input closed, the inherited descriptor is 2 and is moved to slot 5.  The log file is
opened on descriptor 0 and duplicated onto slot 2, so that slot 2 is open again when
`execv` is called. -/
theorem childSetup_source_slot_reused :
    lookup (childSetup execOkEnv 2 5 (marshalLog (some tunLog)) closedStdinProc) 5 =
        some (Handle.inherited 2) ∧
      lookup (childSetup execOkEnv 2 5 (marshalLog (some tunLog)) closedStdinProc) 2 =
        some (Handle.file "/data/app/tun2socks.log" OpenMode.trunc) := by
  refine ⟨?_, ?_⟩ <;> rfl

/-! ### The calls of the child and the state in which it ends -/

theorem dup2_trace (a b : Int) (p : Proc) :
    (sys_dup2 a b p).2.trace = p.trace ++ [Event.dup2 a b (sys_dup2 a b p).1] := by
  unfold sys_dup2
  split
  · rfl
  · split_ifs <;> rfl

theorem close_trace (fd : Int) (p : Proc) :
    (sys_close fd p).2.trace = p.trace ++ [Event.close fd (sys_close fd p).1] := by
  unfold sys_close
  split <;> rfl

theorem open_trace (env : Env) (path : String) (mode : OpenMode) (p : Proc) :
    (sys_open env path mode p).2.trace =
      p.trace ++ [Event.openFile path mode (sys_open env path mode p).1] := by
  unfold sys_open
  split
  · rfl
  · split <;> rfl

theorem dup2_ret_ok (a b : Int) (p : Proc) (h : Handle) (ha : lookup p a = some h)
    (hb0 : 0 ≤ b) (hb1 : b < p.limit) : (sys_dup2 a b p).1 = b := by
  unfold sys_dup2
  rw [ha]
  have h1 : ¬ (b < 0 ∨ (p.limit : Int) ≤ b) := by omega
  simp only [h1, if_false]
  split_ifs <;> rfl

theorem close_ret_ok (fd : Int) (p : Proc) (h : Handle) (hfd : lookup p fd = some h) :
    (sys_close fd p).1 = 0 := by
  unfold sys_close
  rw [hfd]

theorem lookup_dprintf (fd : Int) (text : String) (p : Proc) (k : Int) :
    lookup (sys_dprintf fd text p) k = lookup p k := by
  unfold sys_dprintf
  split <;> rfl

/-- When the inherited descriptor is open and differs from the valid target slot, lines
47-50 issue `dup2(vpn_fd, child_fd)`, which returns `child_fd`, and `close(vpn_fd)`,
which returns 0. -/
theorem remapFd_trace_ne (vpn_fd child_fd : Int) (p : Proc) (h : Handle)
    (hne : vpn_fd ≠ child_fd) (hX : lookup p vpn_fd = some h) (hY0 : 0 ≤ child_fd)
    (hY1 : child_fd < p.limit) :
    (remapFd vpn_fd child_fd p).trace =
      p.trace ++ [Event.dup2 vpn_fd child_fd child_fd, Event.close vpn_fd 0] := by
  have hX2 : lookup (sys_dup2 vpn_fd child_fd p).2 vpn_fd = some h := by
    rw [dup2_lookup_ne _ _ _ _ hne]
    exact hX
  simp only [remapFd, hne, ne_eq, not_false_eq_true, if_true]
  rw [close_trace, dup2_trace, close_ret_ok _ _ h hX2, dup2_ret_ok _ _ _ h hX hY0 hY1]
  simp

/-- The calls of lines 52-60: none without a log path, otherwise the truncating `open`
first; when a log file is opened, the list of calls shows it. -/
theorem redirectLog_trace (env : Env) (logPath : Option String) (q : Proc) :
    ∃ t, (redirectLog env logPath q).trace = q.trace ++ t ∧
      (t = [] ∨ ∃ lp r rest, t = Event.openFile lp .trunc r :: rest) ∧
      (logOpened env logPath q = true → t.any opensLog = true) := by
  cases logPath with
  | none =>
    refine ⟨[], by simp [redirectLog], Or.inl rfl, ?_⟩
    intro hlog
    simp [logOpened] at hlog
  | some lp =>
    by_cases hge : (sys_open env lp .trunc q).1 ≥ 0
    · refine ⟨[Event.openFile lp .trunc (sys_open env lp .trunc q).1,
          Event.dup2 (sys_open env lp .trunc q).1 STDOUT_FILENO
            (sys_dup2 (sys_open env lp .trunc q).1 STDOUT_FILENO (sys_open env lp .trunc q).2).1,
          Event.dup2 (sys_open env lp .trunc q).1 STDERR_FILENO
            (sys_dup2 (sys_open env lp .trunc q).1 STDERR_FILENO
              (sys_dup2 (sys_open env lp .trunc q).1 STDOUT_FILENO
                (sys_open env lp .trunc q).2).2).1,
          Event.close (sys_open env lp .trunc q).1
            (sys_close (sys_open env lp .trunc q).1
              (sys_dup2 (sys_open env lp .trunc q).1 STDERR_FILENO
                (sys_dup2 (sys_open env lp .trunc q).1 STDOUT_FILENO
                  (sys_open env lp .trunc q).2).2).2).1], ?_, Or.inr ⟨_, _, _, rfl⟩, ?_⟩
      · simp only [redirectLog, hge, if_true]
        rw [close_trace, dup2_trace, dup2_trace, open_trace]
        simp
      · intro _
        have h0 : 0 ≤ (sys_open env lp .trunc q).1 := hge
        simp [opensLog, h0]
    · refine ⟨[Event.openFile lp .trunc (sys_open env lp .trunc q).1], ?_,
        Or.inr ⟨_, _, _, rfl⟩, ?_⟩
      · simp only [redirectLog, hge, if_false]
        rw [open_trace]
      · intro hlog
        simp only [logOpened, decide_eq_true_eq] at hlog
        exact absurd hlog hge

/-- Lines 65-73 append calls and leave the descriptor table as they found it: the
descriptor opened for the failure line is closed again. -/
theorem execFailed_trace_fds (env : Env) (logPath : Option String) (q : Proc) :
    (∃ t, (execFailed env logPath q).2.trace = q.trace ++ t) ∧
      ∀ k, lookup (execFailed env logPath q).2 k = lookup q k := by
  cases logPath with
  | none => exact ⟨⟨[Event.exit 127], rfl⟩, fun _ => rfl⟩
  | some lp =>
    by_cases hge : (sys_open env lp .append q).1 ≥ 0
    · constructor
      · refine ⟨[Event.openFile lp .append (sys_open env lp .append q).1,
          Event.dprintf (sys_open env lp .append q).1
            (execvFailedLine env (sys_open env lp .append q).2.errno),
          Event.close (sys_open env lp .append q).1
            (sys_close (sys_open env lp .append q).1
              (sys_dprintf (sys_open env lp .append q).1
                (execvFailedLine env (sys_open env lp .append q).2.errno)
                (sys_open env lp .append q).2)).1,
          Event.exit 127], ?_⟩
        simp only [execFailed, hge, if_true, emit]
        rw [close_trace]
        have hd : ∀ (fd : Int) (text : String) (r : Proc),
            (sys_dprintf fd text r).trace = r.trace ++ [Event.dprintf fd text] := by
          intro fd text r
          unfold sys_dprintf
          split <;> rfl
        rw [hd, open_trace]
        simp
      · intro k
        simp only [execFailed, hge, if_true]
        rw [lookup_emit, close_lookup, lookup_dprintf]
        rcases open_spec env lp .append q with ⟨hret, _, _, _⟩ | ⟨fd, hfd, hfree, _, hlk⟩
        · rw [hret] at hge
          omega
        · rw [hlk, hfd]
          by_cases hk : k = (fd : Int)
          · rw [if_pos hk, hk, hfree]
          · rw [if_neg hk, if_neg hk]
    · constructor
      · refine ⟨[Event.openFile lp .append (sys_open env lp .append q).1, Event.exit 127], ?_⟩
        simp only [execFailed, hge, if_false, emit]
        rw [open_trace]
        simp
      · intro k
        simp only [execFailed, hge, if_false]
        rw [lookup_emit]
        rcases open_spec env lp .append q with ⟨_, hfds, _, _⟩ | ⟨fd, hfd, _, _, _⟩
        · simp only [lookup, hfds]
        · rw [hfd] at hge
          omega

/-- The child calls `execv` in the state `childSetup` leaves; whatever follows leaves the
descriptor table as it was at that call, and nothing follows when `execv` succeeds. -/
theorem childBranch_spec (env : Env) (vpn_fd child_fd : Int) (path : String)
    (argv : List String) (logPath : Option String) (c : Proc) :
    ∃ t, (childBranch env vpn_fd child_fd path argv logPath c).2.trace =
        (childSetup env vpn_fd child_fd logPath c).trace ++ Event.execv path argv :: t ∧
      (∀ k, lookup (childBranch env vpn_fd child_fd path argv logPath c).2 k =
        lookup (childSetup env vpn_fd child_fd logPath c) k) ∧
      (env.execvError path argv = none → t = [] ∧
        (childBranch env vpn_fd child_fd path argv logPath c).1 = Outcome.execed path argv) := by
  cases hexec : env.execvError path argv with
  | none =>
    refine ⟨[], ?_, ?_, fun _ => ⟨rfl, ?_⟩⟩
    · simp [childBranch, sys_execv, hexec, emit]
    · intro k
      simp [childBranch, sys_execv, hexec, lookup_emit]
    · simp [childBranch, sys_execv, hexec]
  | some e =>
    have hq : childBranch env vpn_fd child_fd path argv logPath c =
        execFailed env logPath
          (emit (Event.execv path argv)
            { childSetup env vpn_fd child_fd logPath c with errno := e }) := by
      simp [childBranch, sys_execv, hexec]
    obtain ⟨⟨t, ht⟩, hfds⟩ := execFailed_trace_fds env logPath
      (emit (Event.execv path argv) { childSetup env vpn_fd child_fd logPath c with errno := e })
    refine ⟨t, ?_, ?_, ?_⟩
    · rw [hq, ht]
      simp [emit]
    · intro k
      rw [hq, hfds k]
      rfl
    · intro h
      cases h

/-- In the process where `fork` returns 0, the first calls of the function are the debug
log line and `fork`, and it continues as `childBranch` on a copy of the caller. -/
theorem forkExecWithFd_child_trace (env : Env) (vpn_fd child_fd : Int) (jpath : JString)
    (jargs : List JString) (jlogPath : Option JString) (p : Proc) (path : String)
    (argv : List String) (hpath : GetStringUTFChars jpath = some path)
    (hargs : marshalArgs jargs = some argv) (hfork : env.forkReturn = 0) :
    ∃ (c : Proc) (msg : String), c.fds = p.fds ∧ c.limit = p.limit ∧
      c.trace = p.trace ++ [Event.logd msg, Event.fork 0] ∧
      forkExecWithFd env vpn_fd child_fd jpath jargs jlogPath p =
        childBranch env vpn_fd child_fd path argv (marshalLog jlogPath) c := by
  refine ⟨(sys_fork env (emit (.logd ("Forking: " ++ path ++ " (vpn_fd=" ++ toString vpn_fd ++
        " -> child_fd=" ++ toString child_fd ++ ")")) p)).2,
    "Forking: " ++ path ++ " (vpn_fd=" ++ toString vpn_fd ++
        " -> child_fd=" ++ toString child_fd ++ ")", ?_, ?_, ?_, ?_⟩
  · simp [sys_fork, hfork, emit]
  · simp [sys_fork, hfork, emit]
  · simp [sys_fork, hfork, emit]
  · simp [forkExecWithFd, hpath, hargs, sys_fork, hfork]

/-- C9, amended: let the inherited descriptor `vpn_fd` be open in the caller and the
target `child_fd` be a valid slot (`0 ≤ child_fd < limit`).  In the process where `fork`
returns 0, with the state in which `forkExecWithFd` ends (the state of the `execv` call
when `execv` succeeds; the same descriptor table when it fails) and the calls it has
issued: slot `child_fd` refers to what `vpn_fd` referred to at fork time, provided no log
file was opened or `child_fd` is neither 1 nor 2; when `vpn_fd ≠ child_fd`, the calls
after `fork` are `dup2(vpn_fd, child_fd)` and `close(vpn_fd)`, both successful, and slot
`vpn_fd` is closed, provided no log file was opened or `vpn_fd` is neither 1 nor 2; when
`vpn_fd = child_fd`, the call after `fork` is the `open` of the log or `execv`, no
duplication or close for the remap.  In the process where `fork` does not return 0 (the
parent) the descriptor table is not modified. -/
theorem forkExecWithFd_remap (env : Env) (vpn_fd child_fd : Int) (jpath : JString)
    (jargs : List JString) (jlogPath : Option JString) (p : Proc) (path : String)
    (argv : List String) (h : Handle) (hpath : GetStringUTFChars jpath = some path)
    (hargs : marshalArgs jargs = some argv) (hX : lookup p vpn_fd = some h)
    (hY0 : 0 ≤ child_fd) (hY1 : child_fd < p.limit) :
    (env.forkReturn = 0 →
      (((issued p (forkExecWithFd env vpn_fd child_fd jpath jargs jlogPath p).2).any opensLog
            = false ∨ (child_fd ≠ 1 ∧ child_fd ≠ 2)) →
        lookup (forkExecWithFd env vpn_fd child_fd jpath jargs jlogPath p).2 child_fd =
          some h) ∧
      (vpn_fd ≠ child_fd →
        (∃ msg rest, issued p (forkExecWithFd env vpn_fd child_fd jpath jargs jlogPath p).2 =
          Event.logd msg :: Event.fork 0 :: Event.dup2 vpn_fd child_fd child_fd ::
            Event.close vpn_fd 0 :: rest) ∧
        (((issued p (forkExecWithFd env vpn_fd child_fd jpath jargs jlogPath p).2).any opensLog
              = false ∨ (vpn_fd ≠ 1 ∧ vpn_fd ≠ 2)) →
          lookup (forkExecWithFd env vpn_fd child_fd jpath jargs jlogPath p).2 vpn_fd =
            none)) ∧
      (vpn_fd = child_fd →
        ∃ msg ev rest, issued p (forkExecWithFd env vpn_fd child_fd jpath jargs jlogPath p).2 =
            Event.logd msg :: Event.fork 0 :: ev :: rest ∧
          (ev = Event.execv path argv ∨ ∃ lp r, ev = Event.openFile lp .trunc r)) ∧
      (env.execvError path argv = none →
        (forkExecWithFd env vpn_fd child_fd jpath jargs jlogPath p).1 =
          Outcome.execed path argv ∧
        ∃ tr, (forkExecWithFd env vpn_fd child_fd jpath jargs jlogPath p).2.trace =
          tr ++ [Event.execv path argv])) ∧
    (env.forkReturn ≠ 0 →
      (forkExecWithFd env vpn_fd child_fd jpath jargs jlogPath p).2.fds = p.fds) := by
  constructor
  · intro hfork
    obtain ⟨c, msg, hfds, hlim, hctr, heq⟩ := forkExecWithFd_child_trace env vpn_fd child_fd
      jpath jargs jlogPath p path argv hpath hargs hfork
    obtain ⟨t2, htr, hlk, hok⟩ :=
      childBranch_spec env vpn_fd child_fd path argv (marshalLog jlogPath) c
    obtain ⟨tl, hlog, hhead, hopen⟩ :=
      redirectLog_trace env (marshalLog jlogPath) (remapFd vpn_fd child_fd c)
    have hXc : lookup c vpn_fd = some h := by
      simpa only [lookup, hfds] using hX
    have hY1c : child_fd < c.limit := by rw [hlim]; exact hY1
    rw [heq]
    -- the calls issued, in terms of the calls of the remap step
    have hiss : ∀ tr, (remapFd vpn_fd child_fd c).trace = c.trace ++ tr →
        issued p (childBranch env vpn_fd child_fd path argv (marshalLog jlogPath) c).2 =
          Event.logd msg :: Event.fork 0 :: (tr ++ (tl ++ Event.execv path argv :: t2)) := by
      intro tr hrm
      have hcs : (childSetup env vpn_fd child_fd (marshalLog jlogPath) c).trace =
          (remapFd vpn_fd child_fd c).trace ++ tl := hlog
      unfold issued
      rw [htr, hcs, hrm, hctr]
      have : p.trace ++ [Event.logd msg, Event.fork 0] ++ tr ++ tl ++ Event.execv path argv :: t2
          = p.trace ++ (Event.logd msg :: Event.fork 0 ::
            (tr ++ (tl ++ Event.execv path argv :: t2))) := by simp
      rw [this, List.drop_left]
    have hrm : ∃ tr, (remapFd vpn_fd child_fd c).trace = c.trace ++ tr := by
      by_cases hne : vpn_fd = child_fd
      · exact ⟨[], by simp [remapFd, hne]⟩
      · exact ⟨_, remapFd_trace_ne vpn_fd child_fd c h hne hXc hY0 hY1c⟩
    -- a log file that was opened shows among the calls issued
    have hnolog : (issued p (childBranch env vpn_fd child_fd path argv (marshalLog jlogPath)
        c).2).any opensLog = false →
        logOpened env (marshalLog jlogPath) (remapFd vpn_fd child_fd c) = false := by
      intro hany
      obtain ⟨tr, htr2⟩ := hrm
      rw [hiss tr htr2] at hany
      by_contra hlo
      have hlo2 : logOpened env (marshalLog jlogPath) (remapFd vpn_fd child_fd c) = true := by
        simpa using hlo
      have := hopen hlo2
      simp [List.any_append, this] at hany
    refine ⟨?_, ?_, ?_, ?_⟩
    · intro hcond
      rw [hlk]
      refine childSetup_target env vpn_fd child_fd _ c h hXc hY0 hY1c ?_
      rcases hcond with hany | hns
      · exact Or.inl (hnolog hany)
      · exact Or.inr hns
    · intro hne
      refine ⟨⟨msg, tl ++ Event.execv path argv :: t2, ?_⟩, ?_⟩
      · rw [hiss _ (remapFd_trace_ne vpn_fd child_fd c h hne hXc hY0 hY1c)]
        rfl
      · intro hcond
        rw [hlk]
        refine childSetup_source env vpn_fd child_fd _ c hne ?_
        rcases hcond with hany | hns
        · exact Or.inl (hnolog hany)
        · exact Or.inr hns
    · intro heq2
      have hrm0 : (remapFd vpn_fd child_fd c).trace = c.trace ++ [] := by
        simp [remapFd, heq2]
      rw [hiss [] hrm0]
      rcases hhead with hnil | ⟨lp, r, rest, hcons⟩
      · exact ⟨msg, Event.execv path argv, t2, by rw [hnil]; rfl, Or.inl rfl⟩
      · exact ⟨msg, Event.openFile lp .trunc r, rest ++ Event.execv path argv :: t2,
          by rw [hcons]; rfl, Or.inr ⟨lp, r, rfl⟩⟩
    · intro hexec
      obtain ⟨ht2, hout⟩ := hok hexec
      refine ⟨hout, (childSetup env vpn_fd child_fd (marshalLog jlogPath) c).trace, ?_⟩
      rw [htr, ht2]
  · intro hfork
    exact forkExecWithFd_parent_fds env vpn_fd child_fd jpath jargs jlogPath p hfork

/-- Witness for C9, on the state in which `forkExecWithFd` itself ends.  Followed in the
child with a successful `execv`: descriptor 3 remapped to slot 5 with a log file; then
descriptor 3 remapped to slot 1 without a log path, where no log file is opened.
Followed in the parent: the table is unchanged. -/
theorem forkExecWithFd_remap_witness :
    (lookup (forkExecWithFd execOkEnv 3 5 tunPath tunArgs (some tunLog) callerProc).2 5 =
        some (Handle.inherited 3) ∧
      lookup (forkExecWithFd execOkEnv 3 5 tunPath tunArgs (some tunLog) callerProc).2 3 =
        none ∧
      (forkExecWithFd execOkEnv 3 5 tunPath tunArgs (some tunLog) callerProc).1 =
        Outcome.execed "/data/app/libtun2socks.so" ["libtun2socks.so", "--tunfd", "3"]) ∧
    (lookup (forkExecWithFd execOkEnv 3 1 tunPath tunArgs none callerProc).2 1 =
        some (Handle.inherited 3) ∧
      lookup (forkExecWithFd execOkEnv 3 1 tunPath tunArgs none callerProc).2 3 = none) ∧
    (forkExecWithFd parentEnv 3 5 tunPath tunArgs (some tunLog) callerProc).2.fds =
      callerProc.fds :=
  ⟨⟨((forkExecWithFd_remap execOkEnv 3 5 tunPath tunArgs (some tunLog) callerProc
        "/data/app/libtun2socks.so" ["libtun2socks.so", "--tunfd", "3"] (Handle.inherited 3)
        rfl rfl rfl (by decide) (by decide)).1 rfl).1 (Or.inr ⟨by decide, by decide⟩),
      (((forkExecWithFd_remap execOkEnv 3 5 tunPath tunArgs (some tunLog) callerProc
        "/data/app/libtun2socks.so" ["libtun2socks.so", "--tunfd", "3"] (Handle.inherited 3)
        rfl rfl rfl (by decide) (by decide)).1 rfl).2.1 (by decide)).2
        (Or.inr ⟨by decide, by decide⟩),
      (((forkExecWithFd_remap execOkEnv 3 5 tunPath tunArgs (some tunLog) callerProc
        "/data/app/libtun2socks.so" ["libtun2socks.so", "--tunfd", "3"] (Handle.inherited 3)
        rfl rfl rfl (by decide) (by decide)).1 rfl).2.2.2 rfl).1⟩,
    ⟨((forkExecWithFd_remap execOkEnv 3 1 tunPath tunArgs none callerProc
        "/data/app/libtun2socks.so" ["libtun2socks.so", "--tunfd", "3"] (Handle.inherited 3)
        rfl rfl rfl (by decide) (by decide)).1 rfl).1 (Or.inl rfl),
      (((forkExecWithFd_remap execOkEnv 3 1 tunPath tunArgs none callerProc
        "/data/app/libtun2socks.so" ["libtun2socks.so", "--tunfd", "3"] (Handle.inherited 3)
        rfl rfl rfl (by decide) (by decide)).1 rfl).2.1 (by decide)).2 (Or.inl rfl)⟩,
    (forkExecWithFd_remap parentEnv 3 5 tunPath tunArgs (some tunLog) callerProc
      "/data/app/libtun2socks.so" ["libtun2socks.so", "--tunfd", "3"] (Handle.inherited 3)
      rfl rfl rfl (by decide) (by decide)).2 (by decide)⟩

/-! ## `forkExecWithFd`: redirection of standard output and standard error -/

/-- What lines 52-60 achieve.  When the log cannot be opened the descriptor table is left
as it was.  When `open` returns a descriptor other than 1 and 2 (and slots 1 and 2 are
below the limit), both slots refer to the log file afterwards and the descriptor returned
by `open` is closed. -/
theorem redirectLog_spec (env : Env) (lp : String) (p : Proc) :
    ((sys_open env lp .trunc p).1 < 0 → (redirectLog env (some lp) p).fds = p.fds) ∧
    (0 ≤ (sys_open env lp .trunc p).1 → (sys_open env lp .trunc p).1 ≠ 1 →
      (sys_open env lp .trunc p).1 ≠ 2 → 2 < p.limit →
      lookup (redirectLog env (some lp) p) 1 = some (Handle.file lp .trunc) ∧
      lookup (redirectLog env (some lp) p) 2 = some (Handle.file lp .trunc) ∧
      lookup (redirectLog env (some lp) p) (sys_open env lp .trunc p).1 = none) := by
  constructor
  · intro hneg
    have hno : logOpened env (some lp) p = false := by
      simp only [logOpened, decide_eq_false_iff_not]
      omega
    exact redirectLog_not_opened env (some lp) p hno
  · intro h0 h1 h2 hlim
    simp only [redirectLog, ge_iff_le, h0, if_true]
    rcases open_spec env lp .trunc p with ⟨hret, _, _, _⟩ | ⟨fd, hfd, _, hlimit, hlk⟩
    · rw [hret] at h0
      omega
    · have hself : lookup (sys_open env lp .trunc p).2 (sys_open env lp .trunc p).1 =
          some (Handle.file lp .trunc) := by
        rw [hlk, hfd, if_pos rfl]
      have hlim1 : (STDOUT_FILENO : Int) < ((sys_open env lp .trunc p).2.limit : Nat) := by
        rw [hlimit]; simp only [STDOUT_FILENO]; omega
      have hout := dup2_lookup_ok (sys_open env lp .trunc p).1 STDOUT_FILENO
        (sys_open env lp .trunc p).2 _ hself (by decide) hlim1
      have hself2 : lookup (sys_dup2 (sys_open env lp .trunc p).1 STDOUT_FILENO
          (sys_open env lp .trunc p).2).2 (sys_open env lp .trunc p).1 =
          some (Handle.file lp .trunc) := by
        rw [dup2_lookup_ne _ _ _ _ (by simpa [STDOUT_FILENO] using h1)]
        exact hself
      have hlim2 : (STDERR_FILENO : Int) < ((sys_dup2 (sys_open env lp .trunc p).1 STDOUT_FILENO
          (sys_open env lp .trunc p).2).2.limit : Nat) := by
        rw [dup2_limit, hlimit]; simp only [STDERR_FILENO]; omega
      have herr := dup2_lookup_ok (sys_open env lp .trunc p).1 STDERR_FILENO _ _ hself2
        (by decide) hlim2
      refine ⟨?_, ?_, ?_⟩
      · rw [close_lookup, if_neg (Ne.symm h1),
          dup2_lookup_ne _ _ _ _ (by decide : (1 : Int) ≠ STDERR_FILENO)]
        exact hout
      · rw [close_lookup, if_neg (Ne.symm h2)]
        exact herr
      · rw [close_lookup, if_pos rfl]

/-- C10: the caller has standard output (slot 1) closed and slots 0, 2 and 3 open; the
inherited descriptor 3 stays in slot 3 and a log path is supplied and can be opened.
`open` returns descriptor 1, `dup2(1, 1)` changes nothing, `dup2(1, 2)` redirects standard
error and `close(1)` closes the log descriptor that is standard output: when `execv` is
called, slot 1 is closed and does not refer to the log file. -/
theorem forkExecWithFd_stdout_not_redirected :
    lookup closedStdoutProc 1 = none ∧
      (forkExecWithFd execOkEnv 3 3 tunPath tunArgs (some tunLog) closedStdoutProc).1 =
        Outcome.execed "/data/app/libtun2socks.so" ["libtun2socks.so", "--tunfd", "3"] ∧
      systemCalls (forkExecWithFd execOkEnv 3 3 tunPath tunArgs (some tunLog)
          closedStdoutProc).2.trace =
        [Event.fork 0, Event.openFile "/data/app/tun2socks.log" OpenMode.trunc 1,
          Event.dup2 1 1 1, Event.dup2 1 2 2, Event.close 1 0,
          Event.execv "/data/app/libtun2socks.so" ["libtun2socks.so", "--tunfd", "3"]] ∧
      lookup (forkExecWithFd execOkEnv 3 3 tunPath tunArgs (some tunLog) closedStdoutProc).2 1 =
        none ∧
      lookup (forkExecWithFd execOkEnv 3 3 tunPath tunArgs (some tunLog) closedStdoutProc).2 2 =
        some (Handle.file "/data/app/tun2socks.log" OpenMode.trunc) := by
  refine ⟨?_, ?_, ?_, ?_, ?_⟩ <;> rfl

/-! ## `forkExecWithFd`: the value returned -/

theorem execFailed_outcome (env : Env) (logPath : Option String) (p : Proc) :
    (execFailed env logPath p).1 = Outcome.exited 127 := rfl

theorem childBranch_outcome (env : Env) (vpn_fd child_fd : Int) (path : String)
    (argv : List String) (logPath : Option String) (p : Proc) :
    (childBranch env vpn_fd child_fd path argv logPath p).1 = Outcome.execed path argv ∨
      (childBranch env vpn_fd child_fd path argv logPath p).1 = Outcome.exited 127 := by
  unfold childBranch
  simp only []
  split_ifs
  · left; rfl
  · right; rfl

/-- The value returned and the state left by `forkExecWithFd`, case by case. -/
theorem forkExecWithFd_cases (env : Env) (vpn_fd child_fd : Int) (jpath : JString)
    (jargs : List JString) (jlogPath : Option JString) (p : Proc) :
    (GetStringUTFChars jpath = none ∧
        forkExecWithFd env vpn_fd child_fd jpath jargs jlogPath p = (Outcome.returned (-1), p)) ∨
      (∃ path, GetStringUTFChars jpath = some path ∧ marshalArgs jargs = none ∧
        forkExecWithFd env vpn_fd child_fd jpath jargs jlogPath p = (Outcome.undefined, p)) ∨
      (∃ path argv, GetStringUTFChars jpath = some path ∧ marshalArgs jargs = some argv ∧
        ((env.forkReturn = 0 ∧
            ((forkExecWithFd env vpn_fd child_fd jpath jargs jlogPath p).1 =
                Outcome.execed path argv ∨
              (forkExecWithFd env vpn_fd child_fd jpath jargs jlogPath p).1 =
                Outcome.exited 127)) ∨
          (env.forkReturn < 0 ∧
            (forkExecWithFd env vpn_fd child_fd jpath jargs jlogPath p).1 =
              Outcome.returned (-1)) ∨
          (0 < env.forkReturn ∧
            (forkExecWithFd env vpn_fd child_fd jpath jargs jlogPath p).1 =
              Outcome.returned env.forkReturn))) := by
  cases hpath : GetStringUTFChars jpath with
  | none =>
    left
    exact ⟨rfl, by simp [forkExecWithFd, hpath]⟩
  | some path =>
    right
    cases hargs : marshalArgs jargs with
    | none =>
      left
      exact ⟨path, rfl, rfl, by simp [forkExecWithFd, hpath, hargs]⟩
    | some argv =>
      right
      refine ⟨path, argv, rfl, rfl, ?_⟩
      rcases lt_trichotomy env.forkReturn 0 with hneg | hzero | hpos
      · right; left
        have hne : env.forkReturn ≠ 0 := by omega
        refine ⟨hneg, ?_⟩
        simp [forkExecWithFd, hpath, hargs, sys_fork, hneg, hne]
      · left
        refine ⟨hzero, ?_⟩
        obtain ⟨c, _, _, _, heq⟩ := forkExecWithFd_child env vpn_fd child_fd jpath jargs
          jlogPath p path argv hpath hargs hzero
        rw [heq]
        exact childBranch_outcome env vpn_fd child_fd path argv _ c
      · right; right
        have hne : env.forkReturn ≠ 0 := by omega
        have hnn : ¬ env.forkReturn < 0 := by omega
        refine ⟨hpos, ?_⟩
        simp [forkExecWithFd, hpath, hargs, sys_fork, hnn, hne]

/-- C7: when the path string cannot be marshalled the function returns `-1` and leaves
the state as it is (no `fork`, no other call); when the strings are marshalled it returns
the pid of the child if `fork` returned a positive value, `-1` if `fork` failed, and does
not return to the caller in the process where `fork` returned 0.  The value 0 is never
returned, and every value returned is `-1` or the positive pid that `fork` returned. -/
theorem forkExecWithFd_return (env : Env) (vpn_fd child_fd : Int) (jpath : JString)
    (jargs : List JString) (jlogPath : Option JString) (p : Proc) :
    (GetStringUTFChars jpath = none →
      forkExecWithFd env vpn_fd child_fd jpath jargs jlogPath p = (Outcome.returned (-1), p)) ∧
    (∀ path argv, GetStringUTFChars jpath = some path → marshalArgs jargs = some argv →
      (0 < env.forkReturn →
        (forkExecWithFd env vpn_fd child_fd jpath jargs jlogPath p).1 =
          Outcome.returned env.forkReturn) ∧
      (env.forkReturn < 0 →
        (forkExecWithFd env vpn_fd child_fd jpath jargs jlogPath p).1 =
          Outcome.returned (-1)) ∧
      (env.forkReturn = 0 →
        ∀ v, (forkExecWithFd env vpn_fd child_fd jpath jargs jlogPath p).1 ≠
          Outcome.returned v)) ∧
    (forkExecWithFd env vpn_fd child_fd jpath jargs jlogPath p).1 ≠ Outcome.returned 0 ∧
    (∀ v, (forkExecWithFd env vpn_fd child_fd jpath jargs jlogPath p).1 = Outcome.returned v →
      v = -1 ∨ (0 < v ∧ v = env.forkReturn)) := by
  have hall : ∀ v, (forkExecWithFd env vpn_fd child_fd jpath jargs jlogPath p).1 =
      Outcome.returned v → v = -1 ∨ (0 < v ∧ v = env.forkReturn) := by
    intro v hv
    rcases forkExecWithFd_cases env vpn_fd child_fd jpath jargs jlogPath p with
      ⟨_, h⟩ | ⟨_, _, _, h⟩ | ⟨_, _, _, _, ⟨_, h | h⟩ | ⟨_, h⟩ | ⟨hpos, h⟩⟩ <;>
      rw [h] at hv
    · left
      injection hv with hv
      exact hv.symm
    · cases hv
    · cases hv
    · cases hv
    · left
      injection hv with hv
      exact hv.symm
    · right
      injection hv with hv
      rw [← hv]
      exact ⟨hpos, rfl⟩
  refine ⟨?_, ?_, ?_, hall⟩
  · intro hpath
    simp [forkExecWithFd, hpath]
  · intro path argv hpath hargs
    rcases forkExecWithFd_cases env vpn_fd child_fd jpath jargs jlogPath p with
      ⟨hn, _⟩ | ⟨_, _, hn, _⟩ | ⟨_, _, _, _, hcase⟩
    · rw [hn] at hpath; cases hpath
    · rw [hn] at hargs; cases hargs
    · refine ⟨?_, ?_, ?_⟩
      · intro hpos
        rcases hcase with ⟨h0, _⟩ | ⟨h0, _⟩ | ⟨_, h⟩
        · omega
        · omega
        · exact h
      · intro hneg
        rcases hcase with ⟨h0, _⟩ | ⟨_, h⟩ | ⟨h0, _⟩
        · omega
        · exact h
        · omega
      · intro hzero v hv
        rcases hall v hv with h1 | ⟨h1, h2⟩
        · rcases hcase with ⟨_, h | h⟩ | ⟨h0, _⟩ | ⟨h0, _⟩
          · rw [h] at hv; cases hv
          · rw [h] at hv; cases hv
          · omega
          · omega
        · omega
  · intro h0
    rcases hall 0 h0 with h | ⟨h, _⟩ <;> omega

/-- Witness for C7: an unreadable path string; a launch followed in the parent, where
`fork` returns the pid 4321; a launch where `fork` fails; a launch followed in the
child. -/
theorem forkExecWithFd_return_witness :
    forkExecWithFd parentEnv 3 5 unreadablePath tunArgs (some tunLog) callerProc =
      (Outcome.returned (-1), callerProc) ∧
    (forkExecWithFd parentEnv 3 5 tunPath tunArgs (some tunLog) callerProc).1 =
      Outcome.returned 4321 ∧
    (forkExecWithFd forkFailEnv 3 5 tunPath tunArgs (some tunLog) callerProc).1 =
      Outcome.returned (-1) ∧
    (∀ v, (forkExecWithFd childEnv 3 5 tunPath tunArgs (some tunLog) callerProc).1 ≠
      Outcome.returned v) :=
  ⟨(forkExecWithFd_return parentEnv 3 5 unreadablePath tunArgs (some tunLog) callerProc).1 rfl,
    ((forkExecWithFd_return parentEnv 3 5 tunPath tunArgs (some tunLog) callerProc).2.1
      _ _ rfl rfl).1 (by decide),
    ((forkExecWithFd_return forkFailEnv 3 5 tunPath tunArgs (some tunLog) callerProc).2.1
      _ _ rfl rfl).2.1 (by decide),
    ((forkExecWithFd_return childEnv 3 5 tunPath tunArgs (some tunLog) callerProc).2.1
      _ _ rfl rfl).2.2 rfl⟩

/-! ## `forkExecWithFd`: `execv` fails -/

end NativeHelper
